import Mathlib

/-!
Shallow embedding of the tool-calling orchestration loop of
`backend/ai_generator.py` (class `AIGenerator`) from the RAG chatbot
repository, together with the tool registry contract of
`backend/search_tools.py` (`ToolManager`).

Modelling conventions:
* The external LLM client (`self.client.messages.create`) is modelled as a
  function `llm : Nat → LLMResponse` giving the response to the i-th request
  issued (0-indexed).  Each call the code makes is recorded in a `Trace`:
  the ordered list of `Request`s (the message list, the system string and the
  tool definitions attached, `none` when the call carries no tools), the tool
  results produced in each completed tool round (`execs`), and the returned
  string (`result`).
* A tool manager is duck-typed in the Python code; inside the loop it is
  modelled as `ToolExec : String → kwargs → Except String String`, where
  `Except.error e` models `execute_tool` raising an exception whose
  `str(...)` is `e`, and `Except.ok r` a normal return of text `r`.
  `tool_manager=None` is `Option.none`.
* Python truthiness of `tools` (`None` or `[]` falsy) is modelled by
  `List.isEmpty` on `List ToolDef`; truthiness of `conversation_history`
  (`None` or `""` falsy) by a match on `Option String`.
-/

/-- A tool definition as handed to the LLM (name, description; the schema is
irrelevant to the loop and omitted from the model). -/
structure ToolDef where
  name : String
  description : String
deriving Repr, DecidableEq

/-- A content block of an LLM response: `block.type == "text"` carries
`block.text`; `block.type == "tool_use"` carries `block.id`, `block.name`
and the structured `block.input` (modelled as an association list). -/
inductive ContentBlock where
  | text (s : String)
  | tool_use (id : String) (name : String) (input : List (String × String))
deriving Repr, DecidableEq

/-- An LLM response: `stop_reason` and the ordered `content` block list. -/
structure LLMResponse where
  stop_reason : String
  content : List ContentBlock
deriving Repr, DecidableEq

/-- A `tool_result` dict as built by `AIGenerator._execute_tools`. -/
structure ToolResult where
  tool_use_id : String
  content : String
deriving Repr, DecidableEq

/-- The `content` field of a message dict: a plain string (the initial user
query), the verbatim content-block list of an assistant response, or a list
of tool results. -/
inductive MessageContent where
  | text (s : String)
  | blocks (bs : List ContentBlock)
  | tool_results (rs : List ToolResult)
deriving Repr, DecidableEq

/-- A message dict `{"role": ..., "content": ...}`. -/
structure Message where
  role : String
  content : MessageContent
deriving Repr, DecidableEq

/-- One LLM request as assembled by `AIGenerator._make_api_call`: the message
list, the system string, and the tool definitions attached to the request
(`none` when `api_params` carries no `"tools"` key). -/
structure Request where
  messages : List Message
  system : String
  tools : Option (List ToolDef)
deriving Repr, DecidableEq

/-- Observable record of one `generate_response` run: every request issued in
order, the tool-result list of each completed tool round in order, and the
returned string. -/
structure Trace where
  requests : List Request
  execs : List (List ToolResult)
  result : String
deriving Repr, DecidableEq

/-- The duck-typed tool manager seen from inside the loop:
`execute_tool(name, **kwargs)`, with `Except.error` modelling a raised
exception. -/
def ToolExec : Type := String → List (String × String) → Except String String

/-- `AIGenerator.MAX_TOOL_ROUNDS`. -/
def MAX_TOOL_ROUNDS : Nat := 2

/-- `AIGenerator.SYSTEM_PROMPT`, the static system prompt string. -/
def SYSTEM_PROMPT : String :=
  " You are an AI assistant specialized in course materials and educational content with access to tools for course information.

Tool Usage:
- **search_course_content**: Use for questions about specific course content or detailed educational materials
- **get_course_outline**: Use for questions about course structure, lesson lists, or what topics a course covers
  - Always include: course title, course link, and the complete lesson list with lesson numbers and titles

Search Tool Usage:
- Use the search tool **only** for questions about specific course content or detailed educational materials
- **Up to two tool calls per query** - Use sequential calls when needed (e.g., get outline first, then search specific content)
- Synthesize search results into accurate, fact-based responses
- If search yields no results, state this clearly without offering alternatives

Response Protocol:
- **General knowledge questions**: Answer using existing knowledge without searching
- **Course-specific questions**: Search first, then answer
- **Course outline/structure questions**: Use get_course_outline tool
- **No meta-commentary**:
  - Provide direct answers only â€” no reasoning process, search explanations, or question-type analysis
  - Do not mention \"based on the search results\"


All responses must be:
1. **Brief, Concise and focused** - Get to the point quickly
2. **Educational** - Maintain instructional value
3. **Clear** - Use accessible language
4. **Example-supported** - Include relevant examples when they aid understanding
Provide only the direct answer to what was asked.
"

/-- `AIGenerator._extract_text_response`, body of the `for` loop over
`response.content`: return the first text block's text, else `""`. -/
def extract_text_response_go : List ContentBlock → String
  | [] => ""
  | ContentBlock.text s :: _ => s
  | ContentBlock.tool_use _ _ _ :: rest => extract_text_response_go rest

/-- `AIGenerator._extract_text_response`. -/
def extract_text_response (response : LLMResponse) : String :=
  extract_text_response_go response.content

/-- The request assembled by `AIGenerator._make_api_call`: `"tools"` and
`"tool_choice"` are attached iff `tools and include_tools` is truthy. -/
def make_api_call_request (messages : List Message) (system_content : String)
    (tools : List ToolDef) (include_tools : Bool) : Request :=
  { messages := messages
    system := system_content
    tools := if !tools.isEmpty && include_tools then some tools else none }

/-- `AIGenerator._execute_tools`, body of the `for` loop over
`response.content`: for each `tool_use` block call
`tool_manager.execute_tool(block.name, **block.input)`, catching any
exception and substituting `"Tool execution error: " + str(e)`, and append a
`tool_result` tagged with `block.id`. -/
def execute_tools_go (tool_manager : ToolExec) : List ContentBlock → List ToolResult
  | [] => []
  | ContentBlock.text _ :: rest => execute_tools_go tool_manager rest
  | ContentBlock.tool_use id name input :: rest =>
      let result : String :=
        match tool_manager name input with
        | Except.ok r => r
        | Except.error e => "Tool execution error: " ++ e
      { tool_use_id := id, content := result } :: execute_tools_go tool_manager rest

/-- `AIGenerator._execute_tools`. -/
def execute_tools (response : LLMResponse) (tool_manager : ToolExec) :
    List ToolResult :=
  execute_tools_go tool_manager response.content

/-- `AIGenerator._build_messages_with_tool_results`: copy the message list and
append the assistant response content verbatim, then a user message holding
the tool results. -/
def build_messages_with_tool_results (messages : List Message)
    (assistant_response : LLMResponse) (tool_results : List ToolResult) :
    List Message :=
  messages ++
    [{ role := "assistant", content := MessageContent.blocks assistant_response.content },
     { role := "user", content := MessageContent.tool_results tool_results }]

/-- The `while current_round < MAX_TOOL_ROUNDS` loop of
`AIGenerator._run_tool_loop`, with `fuel = MAX_TOOL_ROUNDS - current_round`
and `n` the number of requests already issued.  `fuel = 0` is loop exit: the
forced final call with `tools=None, include_tools=False`. -/
def run_tool_loop_aux (llm : Nat → LLMResponse) (system_content : String)
    (tools : List ToolDef) (tool_manager : Option ToolExec) :
    Nat → List Message → Nat → Trace
  | 0, current_messages, n =>
      { requests := [make_api_call_request current_messages system_content [] false]
        execs := []
        result := extract_text_response (llm n) }
  | fuel + 1, current_messages, n =>
      if (llm n).stop_reason ≠ "tool_use" then
        { requests := [make_api_call_request current_messages system_content tools true]
          execs := []
          result := extract_text_response (llm n) }
      else
        match tool_manager with
        | none =>
            { requests := [make_api_call_request current_messages system_content tools true]
              execs := []
              result := extract_text_response (llm n) }
        | some tm =>
            let tool_results := execute_tools (llm n) tm
            let rest := run_tool_loop_aux llm system_content tools (some tm) fuel
              (build_messages_with_tool_results current_messages (llm n) tool_results)
              (n + 1)
            { requests := make_api_call_request current_messages system_content tools true
                :: rest.requests
              execs := tool_results :: rest.execs
              result := rest.result }

/-- `AIGenerator._run_tool_loop`. -/
def run_tool_loop (llm : Nat → LLMResponse) (messages : List Message)
    (system_content : String) (tools : List ToolDef)
    (tool_manager : Option ToolExec) : Trace :=
  run_tool_loop_aux llm system_content tools tool_manager MAX_TOOL_ROUNDS messages 0

/-- The `system_content` conditional expression at the top of
`AIGenerator.generate_response`: the history section is appended only when
`conversation_history` is truthy, i.e. neither `None` nor `""`. -/
def build_system_content (conversation_history : Option String) : String :=
  match conversation_history with
  | some h =>
      if h = "" then SYSTEM_PROMPT
      else SYSTEM_PROMPT ++ "\n\nPrevious conversation:\n" ++ h
  | none => SYSTEM_PROMPT

/-- `AIGenerator.generate_response`: build the system content, build the
initial single-user-message list, and either run the tool loop (when `tools`
is truthy) or issue one call without tools. -/
def generate_response (llm : Nat → LLMResponse) (query : String)
    (conversation_history : Option String) (tools : List ToolDef)
    (tool_manager : Option ToolExec) : Trace :=
  let system_content := build_system_content conversation_history
  let messages : List Message := [{ role := "user", content := MessageContent.text query }]
  if !tools.isEmpty then
    run_tool_loop llm messages system_content tools tool_manager
  else
    { requests := [make_api_call_request messages system_content [] true]
      execs := []
      result := extract_text_response (llm 0) }

/-- Modelled from the spec: `ToolManager` of `backend/search_tools.py`, whose
source is not under src/ (only its tests are).  Spec section 4.2: tools are
stored keyed by their declared unique name; registering two tools with the
same name overwrites silently (last write wins). -/
structure ToolManager where
  tools : List (String × (List (String × String) → Except String String))

/-- Modelled from the spec: `ToolManager.register_tool` stores the tool keyed
by its name; a later registration under the same name wins on lookup. -/
def ToolManager.register_tool (tm : ToolManager) (name : String)
    (fn : List (String × String) → Except String String) : ToolManager :=
  { tools := tm.tools ++ [(name, fn)] }

/-- Modelled from the spec: `ToolManager.execute_tool` of
`backend/search_tools.py` (absent from src/): dispatch by name to the most
recently registered tool of that name; on an unknown name return the
user-visible error string "Tool '<name>' not found" rather than raising
(`Except.error` models an exception, so the unknown-name branch is
`Except.ok`). -/
def ToolManager.execute_tool (tm : ToolManager) (tool_name : String)
    (kwargs : List (String × String)) : Except String String :=
  match tm.tools.reverse.find? (fun p => p.1 == tool_name) with
  | some p => p.2 kwargs
  | none => Except.ok ("Tool '" ++ tool_name ++ "' not found")

/-- The message list attached to the i-th request (0-indexed) of a trace
(`[]` when fewer requests were issued). -/
def messagesAt (t : Trace) (i : Nat) : List Message :=
  (t.requests.map Request.messages).getD i []

/-- Concrete fixture: a tool manager whose every execution succeeds. -/
def okExec : ToolExec := fun _ _ => Except.ok "Search results: ML basics content"

/-- Concrete fixture: a tool manager whose every execution raises
`Exception("Course not found")`. -/
def errExec : ToolExec := fun _ _ => Except.error "Course not found"

/-- Concrete fixture: an LLM that requests tools on the first two rounds and
then answers normally. -/
def llmW : Nat → LLMResponse := fun n =>
  if n = 0 then
    { stop_reason := "tool_use",
      content := [ContentBlock.tool_use "tool_123" "search_course_content" [("query", "ML")]] }
  else if n = 1 then
    { stop_reason := "tool_use",
      content := [ContentBlock.tool_use "tool_456" "search_course_content" [("query", "details")]] }
  else
    { stop_reason := "end_turn",
      content := [ContentBlock.text "Forced answer after max rounds"] }

/-- Concrete fixture: an LLM that always answers normally. -/
def llmEnd : Nat → LLMResponse := fun _ =>
  { stop_reason := "end_turn", content := [ContentBlock.text "This is a direct answer."] }

/-- Concrete fixture: an LLM that requests a tool round whose response holds
no tool_use block, then answers normally. -/
def llmNoBlocks : Nat → LLMResponse := fun n =>
  if n = 0 then { stop_reason := "tool_use", content := [ContentBlock.text "thinking"] }
  else { stop_reason := "end_turn", content := [ContentBlock.text "Done"] }

/-- Concrete fixture: a one-entry tool definition list. -/
def toolsW : List ToolDef :=
  [{ name := "search_course_content", description := "Search course content" }]

/-! ### Helper lemmas about the loop -/

theorem run_tool_loop_aux_zero (llm : Nat → LLMResponse) (sc : String)
    (tools : List ToolDef) (tm : Option ToolExec) (msgs : List Message) (n : Nat) :
    run_tool_loop_aux llm sc tools tm 0 msgs n
      = { requests := [make_api_call_request msgs sc [] false]
          execs := []
          result := extract_text_response (llm n) } := rfl

theorem run_tool_loop_aux_succ_stop (llm : Nat → LLMResponse) (sc : String)
    (tools : List ToolDef) (tm : Option ToolExec) (fuel : Nat) (msgs : List Message)
    (n : Nat) (h : (llm n).stop_reason ≠ "tool_use") :
    run_tool_loop_aux llm sc tools tm (fuel + 1) msgs n
      = { requests := [make_api_call_request msgs sc tools true]
          execs := []
          result := extract_text_response (llm n) } := by
  cases tm <;> simp [run_tool_loop_aux, h]

theorem run_tool_loop_aux_succ_none (llm : Nat → LLMResponse) (sc : String)
    (tools : List ToolDef) (fuel : Nat) (msgs : List Message) (n : Nat) :
    run_tool_loop_aux llm sc tools none (fuel + 1) msgs n
      = { requests := [make_api_call_request msgs sc tools true]
          execs := []
          result := extract_text_response (llm n) } := by
  by_cases h : (llm n).stop_reason = "tool_use" <;> simp [run_tool_loop_aux, h]

theorem run_tool_loop_aux_succ_tool (llm : Nat → LLMResponse) (sc : String)
    (tools : List ToolDef) (f : ToolExec) (fuel : Nat) (msgs : List Message)
    (n : Nat) (h : (llm n).stop_reason = "tool_use") :
    run_tool_loop_aux llm sc tools (some f) (fuel + 1) msgs n
      = { requests := make_api_call_request msgs sc tools true
            :: (run_tool_loop_aux llm sc tools (some f) fuel
                 (build_messages_with_tool_results msgs (llm n) (execute_tools (llm n) f))
                 (n + 1)).requests
          execs := execute_tools (llm n) f
            :: (run_tool_loop_aux llm sc tools (some f) fuel
                 (build_messages_with_tool_results msgs (llm n) (execute_tools (llm n) f))
                 (n + 1)).execs
          result := (run_tool_loop_aux llm sc tools (some f) fuel
                 (build_messages_with_tool_results msgs (llm n) (execute_tools (llm n) f))
                 (n + 1)).result } := by
  simp [run_tool_loop_aux, h]

theorem run_tool_loop_aux_requests_ne_nil (llm : Nat → LLMResponse) (sc : String)
    (tools : List ToolDef) (tm : Option ToolExec) (fuel : Nat) (msgs : List Message)
    (n : Nat) :
    (run_tool_loop_aux llm sc tools tm fuel msgs n).requests ≠ [] := by
  cases fuel with
  | zero => simp [run_tool_loop_aux]
  | succ fuel =>
      by_cases h : (llm n).stop_reason = "tool_use" <;>
        cases tm <;> simp [run_tool_loop_aux, h]

theorem run_tool_loop_aux_head (llm : Nat → LLMResponse) (sc : String)
    (tools : List ToolDef) (tm : Option ToolExec) (fuel : Nat) (msgs : List Message)
    (n : Nat) :
    ((run_tool_loop_aux llm sc tools tm fuel msgs n).requests.map
        Request.messages).getD 0 [] = msgs := by
  cases fuel with
  | zero => simp [run_tool_loop_aux, make_api_call_request]
  | succ fuel =>
      by_cases h : (llm n).stop_reason = "tool_use" <;>
        cases tm <;> simp [run_tool_loop_aux, h, make_api_call_request]

theorem run_tool_loop_aux_system (llm : Nat → LLMResponse) (sc : String)
    (tools : List ToolDef) (tm : Option ToolExec) :
    ∀ (fuel : Nat) (msgs : List Message) (n : Nat),
      ∀ req ∈ (run_tool_loop_aux llm sc tools tm fuel msgs n).requests,
        req.system = sc := by
  intro fuel
  induction fuel with
  | zero =>
      intro msgs n req hreq
      rw [run_tool_loop_aux_zero] at hreq
      simp at hreq
      simp [hreq, make_api_call_request]
  | succ fuel ih =>
      intro msgs n req hreq
      by_cases h : (llm n).stop_reason = "tool_use"
      · cases tm with
        | none =>
            rw [run_tool_loop_aux_succ_none] at hreq
            simp at hreq
            simp [hreq, make_api_call_request]
        | some f =>
            rw [run_tool_loop_aux_succ_tool llm sc tools f fuel msgs n h] at hreq
            simp at hreq
            rcases hreq with hreq | hreq
            · simp [hreq, make_api_call_request]
            · exact ih _ (n + 1) req hreq
      · rw [run_tool_loop_aux_succ_stop llm sc tools tm fuel msgs n h] at hreq
        simp at hreq
        simp [hreq, make_api_call_request]

theorem extract_text_response_go_eq_filterMap (bs : List ContentBlock) :
    extract_text_response_go bs
      = (bs.filterMap (fun b => match b with
          | ContentBlock.text s => some s
          | ContentBlock.tool_use _ _ _ => none)).headD "" := by
  induction bs with
  | nil => rfl
  | cons b rest ih => cases b <;> simp [extract_text_response_go, ih]

theorem execute_tools_go_eq_nil (f : ToolExec) (bs : List ContentBlock)
    (h : ∀ b ∈ bs, ∀ id name input, b ≠ ContentBlock.tool_use id name input) :
    execute_tools_go f bs = [] := by
  induction bs with
  | nil => rfl
  | cons b rest ih =>
      cases b with
      | text s =>
          simp only [execute_tools_go]
          exact ih (fun b hb => h b (List.mem_cons_of_mem _ hb))
      | tool_use id name input =>
          exact absurd rfl (h _ (List.mem_cons_self _ _) id name input)

theorem run_tool_loop_aux_msg_len (llm : Nat → LLMResponse) (sc : String)
    (tools : List ToolDef) (f : ToolExec) :
    ∀ (fuel : Nat) (msgs : List Message) (n i : Nat),
      i < (run_tool_loop_aux llm sc tools (some f) fuel msgs n).requests.length →
      (((run_tool_loop_aux llm sc tools (some f) fuel msgs n).requests.map
          Request.messages).getD i []).length = msgs.length + 2 * i := by
  intro fuel
  induction fuel with
  | zero =>
      intro msgs n i hi
      rw [run_tool_loop_aux_zero] at hi ⊢
      simp at hi
      simp [hi, make_api_call_request]
  | succ fuel ih =>
      intro msgs n i hi
      by_cases h : (llm n).stop_reason = "tool_use"
      · rw [run_tool_loop_aux_succ_tool llm sc tools f fuel msgs n h] at hi ⊢
        cases i with
        | zero => simp [make_api_call_request]
        | succ i =>
            simp only [List.length_cons] at hi
            simp only [List.map_cons, List.getD_cons_succ]
            rw [ih _ (n + 1) i (by omega)]
            simp [build_messages_with_tool_results]
            omega
      · rw [run_tool_loop_aux_succ_stop llm sc tools (some f) fuel msgs n h] at hi ⊢
        simp at hi
        simp [hi, make_api_call_request]

theorem run_tool_loop_aux_msg_step (llm : Nat → LLMResponse) (sc : String)
    (tools : List ToolDef) (f : ToolExec) :
    ∀ (fuel : Nat) (msgs : List Message) (n i : Nat),
      i + 1 < (run_tool_loop_aux llm sc tools (some f) fuel msgs n).requests.length →
      ((run_tool_loop_aux llm sc tools (some f) fuel msgs n).requests.map
          Request.messages).getD (i + 1) []
        = (((run_tool_loop_aux llm sc tools (some f) fuel msgs n).requests.map
            Request.messages).getD i [])
          ++ [{ role := "assistant", content := MessageContent.blocks (llm (n + i)).content },
              { role := "user",
                content := MessageContent.tool_results (execute_tools (llm (n + i)) f) }] := by
  intro fuel
  induction fuel with
  | zero =>
      intro msgs n i hi
      rw [run_tool_loop_aux_zero] at hi
      simp at hi
  | succ fuel ih =>
      intro msgs n i hi
      by_cases h : (llm n).stop_reason = "tool_use"
      · rw [run_tool_loop_aux_succ_tool llm sc tools f fuel msgs n h] at hi ⊢
        cases i with
        | zero =>
            simp only [List.map_cons, List.getD_cons_succ, List.getD_cons_zero]
            rw [run_tool_loop_aux_head]
            simp [build_messages_with_tool_results, make_api_call_request]
        | succ i =>
            simp only [List.length_cons] at hi
            simp only [List.map_cons, List.getD_cons_succ]
            have hn : n + 1 + i = n + (i + 1) := by omega
            rw [ih _ (n + 1) i (by omega), hn]
      · rw [run_tool_loop_aux_succ_stop llm sc tools (some f) fuel msgs n h] at hi
        simp at hi

theorem isEmpty_false_of_ne_nil {α : Type} (l : List α) (h : l ≠ []) :
    l.isEmpty = false := by
  cases l with
  | nil => exact absurd rfl h
  | cons a t => rfl

theorem generate_response_tools_eq (llm : Nat → LLMResponse) (query : String)
    (hist : Option String) (tools : List ToolDef) (tm : Option ToolExec)
    (hE : tools.isEmpty = false) :
    generate_response llm query hist tools tm
      = run_tool_loop_aux llm (build_system_content hist) tools tm MAX_TOOL_ROUNDS
          [{ role := "user", content := MessageContent.text query }] 0 := by
  simp [generate_response, hE, run_tool_loop]

/-! ### Claims -/

/-- C1: with the round budget fixed at 2, whenever both round 1's and round 2's
LLM responses have stop reason "tool_use" and a registry is supplied,
`generate_response` issues exactly 3 LLM requests in total: the 2 in-budget
tool rounds carry the tool definitions, the single forced final request
carries none, tools are executed exactly in the 2 in-budget rounds (2 rounds
of executions, not 3), and the loop returns the extracted text of the forced
response. -/
theorem C1_budget_enforcement (llm : Nat → LLMResponse) (query : String)
    (hist : Option String) (tools : List ToolDef) (f : ToolExec)
    (htools : tools ≠ [])
    (h1 : (llm 0).stop_reason = "tool_use")
    (h2 : (llm 1).stop_reason = "tool_use") :
    (generate_response llm query hist tools (some f)).requests.map Request.tools
        = [some tools, some tools, none]
    ∧ (generate_response llm query hist tools (some f)).execs
        = [execute_tools (llm 0) f, execute_tools (llm 1) f]
    ∧ (generate_response llm query hist tools (some f)).result
        = extract_text_response (llm 2) := by
  have hE := isEmpty_false_of_ne_nil tools htools
  rw [generate_response_tools_eq llm query hist tools (some f) hE]
  simp [MAX_TOOL_ROUNDS, run_tool_loop_aux, h1, h2, make_api_call_request, hE]

theorem C1_budget_enforcement_witness :
    toolsW ≠ []
    ∧ (llmW 0).stop_reason = "tool_use"
    ∧ (llmW 1).stop_reason = "tool_use"
    ∧ ((generate_response llmW "What is ML?" none toolsW (some okExec)).requests.map
          Request.tools = [some toolsW, some toolsW, none]
      ∧ (generate_response llmW "What is ML?" none toolsW (some okExec)).execs
          = [execute_tools (llmW 0) okExec, execute_tools (llmW 1) okExec]
      ∧ (generate_response llmW "What is ML?" none toolsW (some okExec)).result
          = extract_text_response (llmW 2)) :=
  ⟨by decide, by decide, by decide,
    C1_budget_enforcement llmW "What is ML?" none toolsW okExec
      (by decide) (by decide) (by decide)⟩

/-- C2: for every completed tool round, the message list sent on round k+1
equals the list sent on round k plus exactly two appended messages — the
assistant's response content verbatim, then a user message holding the
ordered tool results of that round — so the message list on the i-th request
(0-indexed here; 1-indexed in the spec) has length 1 + 2*i; messages are
never removed or reordered. -/
theorem C2_message_accumulation (llm : Nat → LLMResponse) (query : String)
    (hist : Option String) (tools : List ToolDef) (f : ToolExec) (i : Nat)
    (htools : tools ≠ [])
    (hi : i + 1 < (generate_response llm query hist tools (some f)).requests.length) :
    messagesAt (generate_response llm query hist tools (some f)) (i + 1)
      = messagesAt (generate_response llm query hist tools (some f)) i
        ++ [{ role := "assistant", content := MessageContent.blocks (llm i).content },
            { role := "user",
              content := MessageContent.tool_results (execute_tools (llm i) f) }]
    ∧ (messagesAt (generate_response llm query hist tools (some f)) i).length = 1 + 2 * i
    ∧ (messagesAt (generate_response llm query hist tools (some f)) (i + 1)).length
        = 1 + 2 * (i + 1) := by
  have hE := isEmpty_false_of_ne_nil tools htools
  rw [generate_response_tools_eq llm query hist tools (some f) hE] at hi ⊢
  simp only [messagesAt]
  refine ⟨?_, ?_, ?_⟩
  · have h := run_tool_loop_aux_msg_step llm (build_system_content hist) tools f
      MAX_TOOL_ROUNDS [{ role := "user", content := MessageContent.text query }] 0 i hi
    simpa using h
  · have h := run_tool_loop_aux_msg_len llm (build_system_content hist) tools f
      MAX_TOOL_ROUNDS [{ role := "user", content := MessageContent.text query }] 0 i (by omega)
    simpa using h
  · have h := run_tool_loop_aux_msg_len llm (build_system_content hist) tools f
      MAX_TOOL_ROUNDS [{ role := "user", content := MessageContent.text query }] 0 (i + 1) hi
    simpa [Nat.mul_add] using h

theorem C2_message_accumulation_witness :
    toolsW ≠ []
    ∧ 0 + 1 < (generate_response llmW "What is ML?" none toolsW (some okExec)).requests.length
    ∧ (messagesAt (generate_response llmW "What is ML?" none toolsW (some okExec)) (0 + 1)
        = messagesAt (generate_response llmW "What is ML?" none toolsW (some okExec)) 0
          ++ [{ role := "assistant", content := MessageContent.blocks (llmW 0).content },
              { role := "user",
                content := MessageContent.tool_results (execute_tools (llmW 0) okExec) }]
      ∧ (messagesAt (generate_response llmW "What is ML?" none toolsW (some okExec)) 0).length
          = 1 + 2 * 0
      ∧ (messagesAt (generate_response llmW "What is ML?" none toolsW (some okExec)) (0 + 1)).length
          = 1 + 2 * (0 + 1)) :=
  ⟨by decide, by decide,
    C2_message_accumulation llmW "What is ML?" none toolsW okExec 0 (by decide) (by decide)⟩

/-- C3: for every executed response containing n tool_use blocks with
identifiers id_1..id_n, the tool-result list produced for the very next
user-role message contains exactly n entries, in the same relative order,
whose tool_use_id fields match id_1..id_n — one result per tool_use block,
regardless of whether each execution succeeded or failed — and the loop's
message builder places exactly that list in the appended user message. -/
theorem C3_tool_result_pairing (response : LLMResponse) (f : ToolExec) :
    (execute_tools response f).map ToolResult.tool_use_id
      = response.content.filterMap (fun b => match b with
          | ContentBlock.text _ => none
          | ContentBlock.tool_use id _ _ => some id)
    ∧ ∀ msgs : List Message,
        build_messages_with_tool_results msgs response (execute_tools response f)
          = msgs ++ [{ role := "assistant", content := MessageContent.blocks response.content },
                     { role := "user",
                       content := MessageContent.tool_results (execute_tools response f) }] := by
  constructor
  · show (execute_tools_go f response.content).map ToolResult.tool_use_id = _
    generalize response.content = bs
    induction bs with
    | nil => rfl
    | cons b rest ih => cases b <;> simp [execute_tools_go, ih]
  · intro msgs
    rfl

/-- C4: for every tool_use block whose execution raises (any exception),
`_execute_tools` substitutes the result text "Tool execution error: <message>"
containing the original error message, never propagates the exception, still
produces a ToolResult for that block, and keeps executing every remaining
block of the same response; the loop then proceeds to the next LLM request
rather than raising. -/
theorem C4_error_containment (f : ToolExec) (pre post : List ContentBlock)
    (id name : String) (input : List (String × String)) (e : String)
    (herr : f name input = Except.error e) :
    execute_tools_go f (pre ++ ContentBlock.tool_use id name input :: post)
      = execute_tools_go f pre
        ++ { tool_use_id := id, content := "Tool execution error: " ++ e }
          :: execute_tools_go f post
    ∧ ∀ (llm : Nat → LLMResponse) (sc : String) (tools : List ToolDef)
        (fuel : Nat) (msgs : List Message) (n : Nat),
        llm n = { stop_reason := "tool_use",
                  content := pre ++ ContentBlock.tool_use id name input :: post } →
        2 ≤ (run_tool_loop_aux llm sc tools (some f) (fuel + 1) msgs n).requests.length := by
  constructor
  · induction pre with
    | nil => simp [execute_tools_go, herr]
    | cons b rest ih => cases b <;> simp [execute_tools_go, ih]
  · intro llm sc tools fuel msgs n hllm
    rw [run_tool_loop_aux_succ_tool llm sc tools f fuel msgs n (by rw [hllm])]
    have hpos := List.length_pos.mpr
      (run_tool_loop_aux_requests_ne_nil llm sc tools (some f) fuel
        (build_messages_with_tool_results msgs (llm n) (execute_tools (llm n) f)) (n + 1))
    simp only [List.length_cons]
    omega

theorem C4_error_containment_witness :
    errExec "get_course_outline" [("course_name", "NonExistent")] = Except.error "Course not found"
    ∧ (execute_tools_go errExec
          ([] ++ ContentBlock.tool_use "tool_1" "get_course_outline"
            [("course_name", "NonExistent")] :: [])
        = execute_tools_go errExec []
          ++ { tool_use_id := "tool_1", content := "Tool execution error: " ++ "Course not found" }
            :: execute_tools_go errExec []
      ∧ ∀ (llm : Nat → LLMResponse) (sc : String) (tools : List ToolDef)
          (fuel : Nat) (msgs : List Message) (n : Nat),
          llm n = { stop_reason := "tool_use",
                    content := [] ++ ContentBlock.tool_use "tool_1" "get_course_outline"
                      [("course_name", "NonExistent")] :: [] } →
          2 ≤ (run_tool_loop_aux llm sc tools (some errExec) (fuel + 1) msgs n).requests.length) :=
  ⟨rfl, C4_error_containment errExec [] [] "tool_1" "get_course_outline"
    [("course_name", "NonExistent")] "Course not found" rfl⟩

/-- C5: for every round r up to and including the last permitted round
(1 ≤ r ≤ 2), if round r's response has a stop reason other than "tool_use"
(all earlier rounds having requested tools), the loop returns that response's
extracted text with exactly r LLM requests issued, r-1 completed tool rounds
(none in round r), and no forced tool-less request: every issued request
carries the tool definitions. -/
theorem C5_early_termination (llm : Nat → LLMResponse) (query : String)
    (hist : Option String) (tools : List ToolDef) (f : ToolExec) (r : Nat)
    (htools : tools ≠ []) (hr1 : 1 ≤ r) (hr2 : r ≤ MAX_TOOL_ROUNDS)
    (hbefore : ∀ j, j + 1 < r → (llm j).stop_reason = "tool_use")
    (hlast : (llm (r - 1)).stop_reason ≠ "tool_use") :
    (generate_response llm query hist tools (some f)).requests.length = r
    ∧ (generate_response llm query hist tools (some f)).execs.length = r - 1
    ∧ (generate_response llm query hist tools (some f)).result
        = extract_text_response (llm (r - 1))
    ∧ ∀ req ∈ (generate_response llm query hist tools (some f)).requests,
        req.tools = some tools := by
  have hE := isEmpty_false_of_ne_nil tools htools
  rw [generate_response_tools_eq llm query hist tools (some f) hE]
  have hr2' : r ≤ 2 := hr2
  interval_cases r
  · have hl : (llm 0).stop_reason ≠ "tool_use" := by simpa using hlast
    simp [MAX_TOOL_ROUNDS, run_tool_loop_aux, hl, make_api_call_request, hE]
  · have h0 : (llm 0).stop_reason = "tool_use" := hbefore 0 (by omega)
    have hl : (llm 1).stop_reason ≠ "tool_use" := by simpa using hlast
    simp [MAX_TOOL_ROUNDS, run_tool_loop_aux, h0, hl, make_api_call_request, hE]

theorem C5_early_termination_witness :
    toolsW ≠ [] ∧ 1 ≤ 1 ∧ 1 ≤ MAX_TOOL_ROUNDS
    ∧ (∀ j, j + 1 < 1 → (llmEnd j).stop_reason = "tool_use")
    ∧ (llmEnd (1 - 1)).stop_reason ≠ "tool_use"
    ∧ ((generate_response llmEnd "What is 2+2?" none toolsW (some okExec)).requests.length = 1
      ∧ (generate_response llmEnd "What is 2+2?" none toolsW (some okExec)).execs.length = 1 - 1
      ∧ (generate_response llmEnd "What is 2+2?" none toolsW (some okExec)).result
          = extract_text_response (llmEnd (1 - 1))
      ∧ ∀ req ∈ (generate_response llmEnd "What is 2+2?" none toolsW (some okExec)).requests,
          req.tools = some toolsW) :=
  ⟨by decide, by decide, by decide,
    fun j hj => absurd hj (by omega), by decide,
    C5_early_termination llmEnd "What is 2+2?" none toolsW okExec 1
      (by decide) (by decide) (by decide)
      (fun j hj => absurd hj (by omega)) (by decide)⟩

/-- C6: for every call of `generate_response` without tool definitions,
exactly one LLM request is issued carrying no tool metadata, and the returned
string equals the payload of the first text-kind content block of the
response (the empty string if the response holds no text block); text
extraction is total and never raises. -/
theorem C6_no_tools_single_request (llm : Nat → LLMResponse) (query : String)
    (hist : Option String) (tm : Option ToolExec) :
    (generate_response llm query hist [] tm).requests.map Request.tools = [none]
    ∧ (generate_response llm query hist [] tm).result
        = ((llm 0).content.filterMap (fun b => match b with
            | ContentBlock.text s => some s
            | ContentBlock.tool_use _ _ _ => none)).headD "" := by
  constructor
  · simp [generate_response, make_api_call_request]
  · simp [generate_response, extract_text_response, extract_text_response_go_eq_filterMap]

/-- C7: for every run with tool definitions but no registry
(tool_manager=None), if round 1's response requests tool use,
`generate_response` returns the extracted text of that same response with
exactly one LLM request issued, no tool execution attempted, and no
exception raised. -/
theorem C7_no_registry_degradation (llm : Nat → LLMResponse) (query : String)
    (hist : Option String) (tools : List ToolDef)
    (htools : tools ≠ []) (h1 : (llm 0).stop_reason = "tool_use") :
    (generate_response llm query hist tools none).requests.length = 1
    ∧ (generate_response llm query hist tools none).execs = []
    ∧ (generate_response llm query hist tools none).result
        = extract_text_response (llm 0) := by
  have hE := isEmpty_false_of_ne_nil tools htools
  rw [generate_response_tools_eq llm query hist tools none hE]
  simp [MAX_TOOL_ROUNDS, run_tool_loop_aux, h1]

theorem C7_no_registry_degradation_witness :
    toolsW ≠ [] ∧ (llmW 0).stop_reason = "tool_use"
    ∧ ((generate_response llmW "What is ML?" none toolsW none).requests.length = 1
      ∧ (generate_response llmW "What is ML?" none toolsW none).execs = []
      ∧ (generate_response llmW "What is ML?" none toolsW none).result
          = extract_text_response (llmW 0)) :=
  ⟨by decide, by decide,
    C7_no_registry_degradation llmW "What is ML?" none toolsW (by decide) (by decide)⟩

/-- C8: for every name not registered in the tool registry, `execute_tool` on
that name returns the user-visible error string "Tool '<name>' not found" —
a text result, not an exception — and never raises. -/
theorem C8_unknown_tool_error_string (tm : ToolManager) (tool_name : String)
    (kwargs : List (String × String))
    (h : ∀ p ∈ tm.tools, p.1 ≠ tool_name) :
    tm.execute_tool tool_name kwargs
      = Except.ok ("Tool '" ++ tool_name ++ "' not found") := by
  have hfind : tm.tools.reverse.find? (fun p => p.1 == tool_name) = none := by
    rw [List.find?_eq_none]
    intro p hp
    simpa using h p (List.mem_reverse.mp hp)
  unfold ToolManager.execute_tool
  rw [hfind]

theorem C8_unknown_tool_error_string_witness :
    (∀ p ∈ (ToolManager.mk []).tools, p.1 ≠ "unknown_tool")
    ∧ (ToolManager.mk []).execute_tool "unknown_tool" []
        = Except.ok ("Tool '" ++ "unknown_tool" ++ "' not found") :=
  ⟨by simp, C8_unknown_tool_error_string (ToolManager.mk []) "unknown_tool" [] (by simp)⟩

/-- C9: passing conversation_history as the empty string is treated
identically to passing None — history presence is tested by truthiness — so
the system content sent to the LLM on every request is exactly the bare
SYSTEM_PROMPT (no "Previous conversation:" section) whenever
conversation_history is None or empty. -/
theorem C9_empty_history_like_none (llm : Nat → LLMResponse) (query : String)
    (tools : List ToolDef) (tm : Option ToolExec) :
    generate_response llm query (some "") tools tm
        = generate_response llm query none tools tm
    ∧ ∀ req ∈ (generate_response llm query none tools tm).requests,
        req.system = SYSTEM_PROMPT := by
  constructor
  · rfl
  · intro req hreq
    cases hE : tools.isEmpty with
    | true =>
        simp [generate_response, hE] at hreq
        simp [hreq, make_api_call_request, build_system_content]
    | false =>
        simp only [generate_response, run_tool_loop, hE, Bool.not_false, if_true] at hreq
        have h2 := run_tool_loop_aux_system llm (build_system_content none) tools tm
          MAX_TOOL_ROUNDS _ 0 req hreq
        simpa [build_system_content] using h2

/-- C10: if an in-budget response has stop reason "tool_use" but contains zero
tool_use content blocks and a registry is supplied, the round is still
consumed — the loop appends the assistant response content and a user-role
message whose content is the empty list of tool results, increments the round
counter, and issues the next LLM request instead of returning or raising. -/
theorem C10_zero_tool_blocks_round_consumed (llm : Nat → LLMResponse) (sc : String)
    (tools : List ToolDef) (f : ToolExec) (fuel : Nat) (msgs : List Message) (n : Nat)
    (hstop : (llm n).stop_reason = "tool_use")
    (hblocks : ∀ b ∈ (llm n).content, ∀ id name input,
        b ≠ ContentBlock.tool_use id name input) :
    run_tool_loop_aux llm sc tools (some f) (fuel + 1) msgs n
      = { requests := make_api_call_request msgs sc tools true
            :: (run_tool_loop_aux llm sc tools (some f) fuel
                  (msgs ++ [{ role := "assistant",
                              content := MessageContent.blocks (llm n).content },
                            { role := "user",
                              content := MessageContent.tool_results [] }]) (n + 1)).requests
          execs := [] :: (run_tool_loop_aux llm sc tools (some f) fuel
                  (msgs ++ [{ role := "assistant",
                              content := MessageContent.blocks (llm n).content },
                            { role := "user",
                              content := MessageContent.tool_results [] }]) (n + 1)).execs
          result := (run_tool_loop_aux llm sc tools (some f) fuel
                  (msgs ++ [{ role := "assistant",
                              content := MessageContent.blocks (llm n).content },
                            { role := "user",
                              content := MessageContent.tool_results [] }]) (n + 1)).result }
    ∧ 2 ≤ (run_tool_loop_aux llm sc tools (some f) (fuel + 1) msgs n).requests.length := by
  have hexec : execute_tools (llm n) f = [] :=
    execute_tools_go_eq_nil f (llm n).content hblocks
  constructor
  · rw [run_tool_loop_aux_succ_tool llm sc tools f fuel msgs n hstop, hexec]
    simp [build_messages_with_tool_results]
  · rw [run_tool_loop_aux_succ_tool llm sc tools f fuel msgs n hstop]
    have hpos := List.length_pos.mpr
      (run_tool_loop_aux_requests_ne_nil llm sc tools (some f) fuel
        (build_messages_with_tool_results msgs (llm n) (execute_tools (llm n) f)) (n + 1))
    simp only [List.length_cons]
    omega

theorem C10_zero_tool_blocks_round_consumed_witness :
    (llmNoBlocks 0).stop_reason = "tool_use"
    ∧ (∀ b ∈ (llmNoBlocks 0).content, ∀ id name input,
        b ≠ ContentBlock.tool_use id name input)
    ∧ (run_tool_loop_aux llmNoBlocks "s" toolsW (some okExec) (1 + 1) [] 0
        = { requests := make_api_call_request [] "s" toolsW true
              :: (run_tool_loop_aux llmNoBlocks "s" toolsW (some okExec) 1
                    ([] ++ [{ role := "assistant",
                              content := MessageContent.blocks (llmNoBlocks 0).content },
                            { role := "user",
                              content := MessageContent.tool_results [] }]) (0 + 1)).requests
            execs := [] :: (run_tool_loop_aux llmNoBlocks "s" toolsW (some okExec) 1
                    ([] ++ [{ role := "assistant",
                              content := MessageContent.blocks (llmNoBlocks 0).content },
                            { role := "user",
                              content := MessageContent.tool_results [] }]) (0 + 1)).execs
            result := (run_tool_loop_aux llmNoBlocks "s" toolsW (some okExec) 1
                    ([] ++ [{ role := "assistant",
                              content := MessageContent.blocks (llmNoBlocks 0).content },
                            { role := "user",
                              content := MessageContent.tool_results [] }]) (0 + 1)).result }
      ∧ 2 ≤ (run_tool_loop_aux llmNoBlocks "s" toolsW (some okExec) (1 + 1) [] 0).requests.length) :=
  ⟨by decide,
    by intro b hb id name input; simp [llmNoBlocks] at hb; subst hb; simp,
    C10_zero_tool_blocks_round_consumed llmNoBlocks "s" toolsW okExec 1 [] 0
      (by decide)
      (by intro b hb id name input; simp [llmNoBlocks] at hb; subst hb; simp)⟩
